import Mathlib

/-!
# Verification development for `go-xm-exercise`

A shallow embedding of `company/model.go`, `company/handlers.go` and `main.go`.

* Go values of type `any` handed to the store are `Value`s.
* `fmt.Sprintf`/`fmt.Errorf` results whose layout is never inspected by the code are kept
  symbolic (`Text.sprintf format args`); the one format whose output becomes SQL text
  (`" and %v=$%v"` in `filteringQuery`) is rendered.
* A Go run-time panic is an explicit outcome (`Run.panic`).
* The storage driver, the geolocation service and the standard-library parsers are
  parameters: every theorem holds for all of their possible behaviours.
-/

namespace company

/-! ## Values, messages, errors -/

/-- A Go value passed to the store as a statement argument (`any`). -/
inductive Value where
  | int (n : Int)
  | text (s : String)
  | null
deriving DecidableEq

/-- Text produced for humans: a literal, or `fmt.Sprintf format args` kept symbolic. -/
inductive Text where
  | lit (s : String)
  | sprintf (format : String) (args : List Value)
deriving DecidableEq

/-- Failures reported by the pgx driver. `noRows` is `pgx.ErrNoRows`. -/
inductive PgxError where
  | noRows
  | other (msg : String)
deriving DecidableEq

/-- Go `error` values that occur in the package. -/
inductive GoError where
  | errorf (format : String) (args : List Value)
  | ErrNotFound (msg : Text)
  | pgx (e : PgxError)
  | other (msg : String)
deriving DecidableEq

/-- The method `Error()`. -/
def GoError.Error : GoError → Text
  | .errorf f a => .sprintf f a
  | .ErrNotFound m => m
  | .pgx .noRows => .lit "no rows in result set"
  | .pgx (.other m) => .lit m
  | .other m => .lit m

/-- The type assertion `_, ok := err.(ErrNotFound)`. -/
def GoError.isErrNotFound : GoError → Bool
  | .ErrNotFound _ => true
  | _ => false

deriving instance DecidableEq for Except

/-- Outcome of running Go code that may panic. -/
inductive Run (α : Type) where
  | ret (a : α)
  | panic (msg : String)
deriving DecidableEq

/-- The struct `Company`; a nil `*string` is `none`. -/
structure Company where
  ID : Int
  Name : Option String
  Code : Option String
  Country : Option String
  Website : Option String
  Phone : Option String
deriving DecidableEq

/-- A `*string` as a statement argument. -/
def Value.ofPtr : Option String → Value
  | none => .null
  | some s => .text s

/-! ## `filteringQuery` -/

/-- The type `url.Values`, as the sequence of entries in the order in which one
`for k, val := range form` visits them. -/
abbrev Values := List (String × List String)

/-- The map literal `attrset` of `filteringQuery`; a missing key reads as `false`. -/
def attrset (k : String) : Bool :=
  k = "name" || k = "code" || k = "country" || k = "website" || k = "phone"

/-- The result triple of `filteringQuery`: query text, arguments, error. -/
abbrev FilterResult := String × List Value × Option GoError

/-- The loop of `filteringQuery`, with its variables `i`, `args` and `b` as state.
`ToLower` is `strings.ToLower`. -/
def filteringLoop (ToLower : String → String) :
    Values → Nat → List Value → String → Run FilterResult
  | [], _, args, b => .ret (b, args, none)
  | (k, val) :: rest, i, args, b =>
    if !attrset (ToLower k) then
      .ret ("", [], some (.errorf "unknown attribute %q" [.text k]))
    else
      let i := i + 1
      let b := b ++ (" and " ++ k ++ "=$" ++ toString i)
      match val with
      | [] => .panic "index out of range [0] with length 0"
      | v :: _ => filteringLoop ToLower rest i (args ++ [.text v]) b

/-- The function `filteringQuery(query, form)`. -/
def filteringQuery (ToLower : String → String) (query : String) (form : Values) :
    Run FilterResult :=
  let b := "" ++ query
  let b := b ++ " where 1=1"
  filteringLoop ToLower form 0 [] b

/-- Lower-casing of ASCII letters, on which `strings.ToLower` and this function agree;
used to evaluate the code on concrete ASCII inputs. -/
def asciiLower (s : String) : String :=
  String.mk (s.data.map fun c => if 'A' ≤ c ∧ c ≤ 'Z' then Char.ofNat (c.toNat + 32) else c)

/-! ## The storage collaborator -/

/-- The contents of table `company`. -/
abbrev Table := List Company

/-- The value `pgx.Rows` returned by a successful query: the outcome of `rows.Scan` for each
row that `rows.Next()` yields, and the value of `rows.Err()` once iteration has ended. -/
structure Rows where
  scans : List (Except PgxError Company)
  Err : Option PgxError
deriving DecidableEq

/-- Behaviour of the store behind the pool: whether `Begin` fails, and what each statement
answers on the current committed table. `Exec` answers the rows-affected count and the table
after the statement. -/
structure Driver where
  Begin : Table → Option PgxError
  Query : String → List Value → Table → Except PgxError Rows
  QueryRow : String → List Value → Table → Except PgxError Company
  Exec : String → List Value → Table → Except PgxError (Nat × Table)

/-- Calls made on the pool (`m.db`) and on a transaction handle (`tx`). -/
inductive Event where
  | Begin
  | Query (sql : String) (args : List Value)
  | QueryRow (sql : String) (args : List Value)
  | Exec (sql : String) (args : List Value)
  | TxExec (sql : String) (args : List Value)
  | TxCommit
  | TxRollback
deriving DecidableEq

/-- State of the store as seen through the pool: the committed table, whether the transaction
opened by the running operation is still open, and the effect trace. Each trace entry is a
call together with the committed table right after it. -/
structure DB where
  table : Table
  txOpen : Bool
  trace : List (Event × Table)
deriving DecidableEq

/-- Append a call to the trace. -/
def DB.log (db : DB) (e : Event) : DB :=
  { db with trace := db.trace ++ [(e, db.table)] }

/-- The call `m.db.Begin(ctx)`. -/
def DB.Begin (d : Driver) (db : DB) : Option PgxError × DB :=
  match d.Begin db.table with
  | some e => (some e, db.log .Begin)
  | none => (none, { db with txOpen := true }.log .Begin)

/-- The call `m.db.Query(ctx, sql, args...)`. -/
def DB.Query (d : Driver) (sql : String) (args : List Value) (db : DB) :
    Except PgxError Rows × DB :=
  (d.Query sql args db.table, db.log (.Query sql args))

/-- The call `m.db.QueryRow(ctx, sql, args...).Scan(...)`. -/
def DB.QueryRow (d : Driver) (sql : String) (args : List Value) (db : DB) :
    Except PgxError Company × DB :=
  (d.QueryRow sql args db.table, db.log (.QueryRow sql args))

/-- The call `m.db.Exec(ctx, sql, args...)` on the pool: the statement runs on a pooled
connection outside any transaction, so its effect is committed at once. -/
def DB.Exec (d : Driver) (sql : String) (args : List Value) (db : DB) :
    Except PgxError Nat × DB :=
  match d.Exec sql args db.table with
  | .error e => (.error e, db.log (.Exec sql args))
  | .ok (n, t) => (.ok n, { db with table := t }.log (.Exec sql args))

/-- The call `tx.Commit(ctx)`. The operations of this package issue no statement on `tx`, so
the transaction being committed is empty and the committed table does not change. -/
def DB.TxCommit (db : DB) : DB :=
  { db with txOpen := false }.log .TxCommit

/-- The deferred call `tx.Rollback(ctx)`; on a transaction already committed it does nothing. -/
def DB.TxRollback (db : DB) : DB :=
  { db with txOpen := false }.log .TxRollback

/-! ## `Model` -/

/-- The loop `for rows.Next() { ... rows.Scan ... }` of `Model.All`. -/
def scanLoop : List (Except PgxError Company) → List Company → Except PgxError (List Company)
  | [], companies => .ok companies
  | .error e :: _, _ => .error e
  | .ok c :: rest, companies => scanLoop rest (companies ++ [c])

/-- The base query of `Model.All`. -/
def allSQL : String := "select id, name, code, country, website, phone from company"

/-- The method `Model.All(form)`; the result is the Go pair `([]Company, error)`. -/
def Model.All (ToLower : String → String) (d : Driver) (form : Values) (db : DB) :
    Run (List Company × Option GoError) × DB :=
  match filteringQuery ToLower allSQL form with
  | .panic m => (.panic m, db)
  | .ret (_, _, some err) => (.ret ([], some (.ErrNotFound err.Error)), db)
  | .ret (sql, args, none) =>
    match db.Query d sql args with
    | (.error e, db) => (.ret ([], some (.pgx e)), db)
    | (.ok rows, db) =>
      -- the variable `err` of `rows, err := m.db.Query(...)`, nil past its check
      let err : Option GoError := none
      match scanLoop rows.scans [] with
      | .error e => (.ret ([], some (.pgx e)), db)
      | .ok companies =>
        if rows.Err ≠ none then (.ret ([], err), db)
        else if companies.length = 0 then
          (.ret ([], some (.ErrNotFound (.lit "companies not found"))), db)
        else (.ret (companies, none), db)

/-- The query of `Model.ByID`. -/
def byIDSQL : String := "select id, name, code, country, website, phone from company where id = $1"

/-- The method `Model.ByID(id)`. Its Go result `(*Company, error)` is either `(nil, err)` or
`(&c, nil)`. -/
def Model.ByID (d : Driver) (id : String) (db : DB) : Except GoError Company × DB :=
  match db.QueryRow d byIDSQL [.text id] with
  | (.error e, db) =>
    if e = .noRows then
      (.error (.ErrNotFound (.sprintf "company with id %q not found" [.text id])), db)
    else (.error (.pgx e), db)
  | (.ok c, db) => (.ok c, db)

/-- The statement of `Model.Delete`. -/
def deleteSQL : String := "delete from company where id = $1"

/-- The method `Model.Delete(c)`. -/
def Model.Delete (d : Driver) (c : Company) (db : DB) : Option GoError × DB :=
  match db.Begin d with
  | (some e, db) => (some (.pgx e), db)
  | (none, db) =>
    match db.Exec d deleteSQL [.int c.ID] with
    | (.error e, db) => (some (.pgx e), db.TxRollback)
    | (.ok n, db) =>
      if n ≠ 1 then
        (some (.errorf "failed to delete company with id %v" [.int c.ID]), db.TxRollback)
      else (none, db.TxCommit.TxRollback)

/-- The statement of `Model.Update`. -/
def updateSQL : String :=
  "update company \n\t\tset name = $1,\n\t\t\tcode = $2,\n\t\t\tcountry = $3,\n\t\t\twebsite = $4,\n\t\t\tphone = $5\n\t\twhere id = $6"

/-- The method `Model.Update(c)`. -/
def Model.Update (d : Driver) (c : Company) (db : DB) : Option GoError × DB :=
  match db.Begin d with
  | (some e, db) => (some (.pgx e), db)
  | (none, db) =>
    match db.Exec d updateSQL
      [.ofPtr c.Name, .ofPtr c.Code, .ofPtr c.Country, .ofPtr c.Website, .ofPtr c.Phone,
        .int c.ID] with
    | (.error e, db) => (some (.pgx e), db.TxRollback)
    | (.ok n, db) =>
      if n ≠ 1 then
        (some (.errorf "failed to update company with id %v" [.int c.ID]), db.TxRollback)
      else (none, db.TxCommit.TxRollback)

/-! ## HTTP plumbing -/

/-- The response writer, with the behaviour of `httptest.ResponseRecorder`: the first
`WriteHeader` fixes the status code, a `Write` before any `WriteHeader` implies status 200. -/
structure ResponseRecorder where
  Code : Nat
  HeaderMap : List (String × String)
  Body : List Text
  wroteHeader : Bool
deriving DecidableEq

/-- The recorder `httptest.NewRecorder()`. -/
def NewRecorder : ResponseRecorder :=
  { Code := 200, HeaderMap := [], Body := [], wroteHeader := false }

/-- The call `w.Header().Set(key, value)`; the header map is an association list in which
the first binding of a key is the current one. -/
def ResponseRecorder.Set (w : ResponseRecorder) (key value : String) : ResponseRecorder :=
  { w with HeaderMap := (key, value) :: w.HeaderMap }

/-- The call `w.Header().Get(key)`. -/
def ResponseRecorder.Get (w : ResponseRecorder) (key : String) : Option String :=
  (w.HeaderMap.find? fun kv => kv.1 = key).map Prod.snd

/-- The call `w.WriteHeader(code)`. -/
def ResponseRecorder.WriteHeader (w : ResponseRecorder) (code : Nat) : ResponseRecorder :=
  if w.wroteHeader then w else { w with Code := code, wroteHeader := true }

/-- The call `w.Write(bytes)`. -/
def ResponseRecorder.Write (w : ResponseRecorder) (bytes : Text) : ResponseRecorder :=
  let w := if w.wroteHeader then w else w.WriteHeader 200
  { w with Body := w.Body ++ [bytes] }

/-- The function `http.Error(w, error, code)`. -/
def httpError (w : ResponseRecorder) (error : Text) (code : Nat) : ResponseRecorder :=
  let w := w.Set "Content-Type" "text/plain; charset=utf-8"
  let w := w.Set "X-Content-Type-Options" "nosniff"
  let w := w.WriteHeader code
  (w.Write error).Write (.lit "\n")

/-- What the handlers read from `*http.Request`: the remote address, the result of
`r.BasicAuth()`, the outcome of `r.ParseForm()` (on success, `r.Form`), and the outcome of
decoding the JSON body into a fresh `Company`. -/
structure Request where
  RemoteAddr : String
  BasicAuth : String × String × Bool
  ParseForm : Except GoError Values
  DecodeBody : Except GoError Company

/-- The type `httprouter.Params`. -/
abbrev Params := List (String × String)

/-- The method `Params.ByName`. -/
def ByName (p : Params) (name : String) : String :=
  match p.find? fun kv => kv.1 = name with
  | some kv => kv.2
  | none => ""

/-- The type `httprouter.Handle`; `σ` is everything outside the response writer that a
handler may read or change. -/
abbrev Handle (σ : Type) := ResponseRecorder → Request → Params → σ → ResponseRecorder × σ

/-- The status chosen for an error of `Model.All` or `Model.ByID`. -/
def lookupStatus (err : GoError) : Nat :=
  let status := 500
  if err.isErrNotFound then 400 else status

/-- The tail shared by the handlers: content type, status 200, body. -/
def writeJSON (w : ResponseRecorder) (bytes : String) : ResponseRecorder :=
  ((w.Set "Content-Type" "application/json; charset=utf-8").WriteHeader 200).Write (.lit bytes)

/-- The handler `List(model)` (renamed: `List` is taken). `Marshal` is `json.Marshal` on
`[]Company`. -/
def ListHandler (ToLower : String → String) (d : Driver)
    (Marshal : List Company → Except GoError String)
    (w : ResponseRecorder) (r : Request) (db : DB) : Run (ResponseRecorder × DB) :=
  match r.ParseForm with
  | .error err => .ret (httpError w err.Error 500, db)
  | .ok form =>
    match Model.All ToLower d form db with
    | (.panic m, _) => .panic m
    | (.ret (_, some err), db) => .ret (httpError w err.Error (lookupStatus err), db)
    | (.ret (companies, none), db) =>
      match Marshal companies with
      | .error err => .ret (httpError w err.Error 500, db)
      | .ok bytes => .ret (writeJSON w bytes, db)

/-- The handler `Delete(model)`. `Marshal` is `json.Marshal` on `*Company`. -/
def Delete (d : Driver) (Marshal : Company → Except GoError String) : Handle DB :=
  fun w _ p db =>
    match Model.ByID d (ByName p "id") db with
    | (.error err, db) => (httpError w err.Error (lookupStatus err), db)
    | (.ok company, db) =>
      match Model.Delete d company db with
      | (some err, db) => (httpError w err.Error 500, db)
      | (none, db) =>
        match Marshal company with
        | .error err => (httpError w err.Error 500, db)
        | .ok bytes => (writeJSON w bytes, db)

/-- The handler `Update(model)`. -/
def Update (d : Driver) (Marshal : Company → Except GoError String) : Handle DB :=
  fun w r p db =>
    match Model.ByID d (ByName p "id") db with
    | (.error err, db) => (httpError w err.Error (lookupStatus err), db)
    | (.ok company, db) =>
      match r.DecodeBody with
      | .error err => (httpError w err.Error 400, db)
      | .ok update =>
        let update := { update with ID := company.ID }
        match Model.Update d update db with
        | (some err, db) => (httpError w err.Error 500, db)
        | (none, db) =>
          match Marshal update with
          | .error err => (httpError w err.Error 500, db)
          | .ok bytes => (writeJSON w bytes, db)

/-! ## The gates and their composition -/

/-- The decorator `BasicAuth(h, usr, pass)`. -/
def BasicAuth {σ : Type} (h : Handle σ) (usr pass : String) : Handle σ :=
  fun w r p s =>
    match r.BasicAuth with
    | (reqUsr, reqUsrPass, hasAuth) =>
      if hasAuth && usr == reqUsr && pass == reqUsrPass then h w r p s
      else
        let w := w.Set "WWW-Authenticate" "Basic realm=Restricted"
        (httpError w (.lit "Unauthorized") 401, s)

/-- The decorator `CyprusRequest(h)`. `SplitHostPort` and `ParseIP` are the functions of
package `net` (`ParseIP` answers whether the result is non-nil); `countryNameByIP` is the
geolocation lookup, which may read and change the world `σ`. -/
def CyprusRequest {σ : Type} (SplitHostPort : String → Except GoError (String × String))
    (ParseIP : String → Bool) (countryNameByIP : String → σ → Except GoError String × σ)
    (h : Handle σ) : Handle σ :=
  fun w r p s =>
    match SplitHostPort r.RemoteAddr with
    | .error _ =>
      (httpError w (.sprintf "remote address %q is not IP:port" [.text r.RemoteAddr]) 400, s)
    | .ok (ip, _) =>
      if !ParseIP ip then
        (httpError w (.sprintf "remote address %q is not IP:port" [.text r.RemoteAddr]) 400, s)
      else
        match countryNameByIP ip s with
        | (.error err, s) => (httpError w err.Error 500, s)
        | (.ok cname, s) =>
          if cname == "Cyprus" then h w r p s
          else (httpError w (.lit "Unauthorized") 401, s)

/-- The constant `user` of `main.go`. -/
def user : String := "xmusr"

/-- The constant `pass` of `main.go`. -/
def pass : String := "xmpass"

/-- The function `wrapOptions(h, options)` of `main.go`. -/
def wrapOptions {σ : Type} (SplitHostPort : String → Except GoError (String × String))
    (ParseIP : String → Bool) (countryNameByIP : String → σ → Except GoError String × σ) :
    Handle σ → List String → Handle σ
  | h, [] => h
  | h, opt :: options =>
    let h :=
      if opt = "1" then CyprusRequest SplitHostPort ParseIP countryNameByIP h
      else if opt = "2" then BasicAuth h user pass
      else h
    wrapOptions SplitHostPort ParseIP countryNameByIP h options

/-! ## Observation of calls -/

/-- A world extended with two counters: invocations of the inner handler and of the
geolocation lookup. -/
structure Spy (σ : Type) where
  world : σ
  handlerCalls : Nat
  lookupCalls : Nat
deriving DecidableEq

/-- The handler `h`, instrumented to count each of its invocations. -/
def observed {σ : Type} (h : Handle σ) : Handle (Spy σ) :=
  fun w r p s =>
    let out := h w r p s.world
    (out.1, { s with world := out.2, handlerCalls := s.handlerCalls + 1 })

/-- The lookup `f`, instrumented to count each of its invocations. -/
def observedLookup {σ : Type} (f : String → σ → Except GoError String × σ) :
    String → Spy σ → Except GoError String × Spy σ :=
  fun ip s =>
    let out := f ip s.world
    (out.1, { s with world := out.2, lookupCalls := s.lookupCalls + 1 })

/-- A lookup that is a function of the address alone and leaves the world as it is. -/
def pureLookup {σ : Type} (f : String → Except GoError String) :
    String → σ → Except GoError String × σ :=
  fun ip s => (f ip, s)

/-! ## Concrete collaborators, for evaluating the code on explicit inputs -/

/-- An in-memory store that never fails and understands the statements used below: the
unfiltered listing, the listing filtered by `name`, the lookup by id, and the two mutations
of `Model.Delete` and `Model.Update`. -/
def memDriver : Driver where
  Begin := fun _ => none
  Query := fun sql args t =>
    if sql = allSQL ++ " where 1=1" then .ok { scans := t.map .ok, Err := none }
    else if sql = allSQL ++ " where 1=1 and name=$1" then
      match args with
      | [.text v] => .ok { scans := (t.filter fun c => c.Name = some v).map .ok, Err := none }
      | _ => .error (.other "bad arguments")
    else .error (.other "unsupported statement")
  QueryRow := fun sql args t =>
    if sql = byIDSQL then
      match args with
      | [.text id] =>
        match t.find? fun c => toString c.ID = id with
        | some c => .ok c
        | none => .error .noRows
      | _ => .error (.other "bad arguments")
    else .error (.other "unsupported statement")
  Exec := fun sql args t =>
    if sql = deleteSQL then
      match args with
      | [.int id] => .ok ((t.filter fun c => c.ID = id).length, t.filter fun c => c.ID ≠ id)
      | _ => .error (.other "bad arguments")
    else if sql = updateSQL then
      match args with
      | [name, code, country, website, phone, .int id] =>
        let opt : Value → Option String := fun v =>
          match v with
          | .text s => some s
          | _ => none
        .ok ((t.filter fun c => c.ID = id).length,
          t.map fun c =>
            if c.ID = id then
              { ID := id, Name := opt name, Code := opt code, Country := opt country,
                Website := opt website, Phone := opt phone }
            else c)
      | _ => .error (.other "bad arguments")
    else .error (.other "unsupported statement")

/-- The store `memDriver` seen by a request that loses a race: between the lookup and the
mutation another client empties the table, so the mutation runs on an empty table. -/
def racedDriver : Driver :=
  { memDriver with Exec := fun sql args _ => memDriver.Exec sql args [] }

/-- A store whose listing query succeeds and yields its rows, after which iteration ends with
a failure reported by `rows.Err()`. -/
def brokenRowsDriver : Driver :=
  { memDriver with
    Query := fun _ _ t =>
      .ok { scans := t.map .ok, Err := some (.other "unexpected EOF") } }

/-- A store state with the given committed table, no open transaction, an empty trace. -/
def DB.init (t : Table) : DB := { table := t, txOpen := false, trace := [] }

/-- A company with the given id and name, the other attributes absent. -/
def named (id : Int) (name : String) : Company :=
  { ID := id, Name := some name, Code := none, Country := none, Website := none, Phone := none }

/-- A request for the handlers with the given parsed form. -/
def formRequest (form : Values) : Request :=
  { RemoteAddr := "", BasicAuth := ("", "", false), ParseForm := .ok form,
    DecodeBody := .error (.other "EOF") }

/-- An encoder in the place of `json.Marshal` that always succeeds. -/
def marshalAny {α : Type} : α → Except GoError String := fun _ => .ok "json"

/-- A stand-in for `net.SplitHostPort` on the two addresses of `TestCyprusRequest`. -/
def testSplitHostPort (addr : String) : Except GoError (String × String) :=
  if addr = "102.38.233.1:34343" then .ok ("102.38.233.1", "34343")
  else if addr = "8.8.8.8:34343" then .ok ("8.8.8.8", "34343")
  else .error (.other "missing port in address")

/-- A stand-in for `net.ParseIP` on the two hosts of `TestCyprusRequest`. -/
def testParseIP (ip : String) : Bool :=
  ip = "102.38.233.1" || ip = "8.8.8.8"

/-- A geolocation service that places `102.38.233.1` in Cyprus and every other address in
the United States. -/
def testCountry (ip : String) : Except GoError String :=
  if ip = "102.38.233.1" then .ok "Cyprus" else .ok "United States"

/-- The inner handler of the tests: `w.WriteHeader(200)`. -/
def okHandler : Handle Unit :=
  fun w _ _ s => (w.WriteHeader 200, s)

/-- A request with the given remote address and result of `r.BasicAuth()`. -/
def gateRequest (addr : String) (auth : String × String × Bool) : Request :=
  { RemoteAddr := addr, BasicAuth := auth, ParseForm := .ok [],
    DecodeBody := .error (.other "EOF") }

/-! ## Specification-side vocabulary -/

/-- The text ` and k=$i` for the keys `k` of a list, numbered from `i`. -/
def whereClauses : Nat → List String → String
  | _, [] => ""
  | i, k :: ks => " and " ++ k ++ "=$" ++ toString i ++ whereClauses (i + 1) ks

/-- The keys of a form, in visiting order. -/
def keysOf (form : Values) : List String := form.map Prod.fst

/-- The entries visited before the first key that fails the whitelist check. -/
def acceptedPrefix (ToLower : String → String) (form : Values) : Values :=
  form.takeWhile fun e => attrset (ToLower e.1)

/-- The status code of a handler run, when the handler returned. -/
def statusOf {σ : Type} : Run (ResponseRecorder × σ) → Option Nat
  | .ret (w, _) => some w.Code
  | .panic _ => none

/-- Whether the geo gate lets a request through, for a lookup that is a function of the
address: the remote address splits, its host parses as an IP, and the lookup answers
`Cyprus`. -/
def geoPasses (SplitHostPort : String → Except GoError (String × String))
    (ParseIP : String → Bool) (lookup : String → Except GoError String) (r : Request) : Bool :=
  match SplitHostPort r.RemoteAddr with
  | .error _ => false
  | .ok (ip, _) =>
    ParseIP ip &&
      match lookup ip with
      | .ok cname => cname = "Cyprus"
      | .error _ => false

/-- Whether the credential gate of `wrapOptions` lets a request through. -/
def credentialPasses (r : Request) : Bool :=
  r.BasicAuth = (user, pass, true)

/-- Whether the gate named by an option identifier lets a request through; an identifier other
than `1` and `2` names no gate. -/
def gatePasses (SplitHostPort : String → Except GoError (String × String))
    (ParseIP : String → Bool) (lookup : String → Except GoError String) (r : Request)
    (opt : String) : Bool :=
  if opt = "1" then geoPasses SplitHostPort ParseIP lookup r
  else if opt = "2" then credentialPasses r
  else true

/-! ## `filteringQuery`: lemmas -/

theorem filteringLoop_accepts (ToLower : String → String) :
    ∀ (form : Values) (i : Nat) (args : List Value) (b : String),
      (∀ e ∈ form, attrset (ToLower e.1) = true) → (∀ e ∈ form, e.2 ≠ []) →
      filteringLoop ToLower form i args b =
        .ret (b ++ whereClauses (i + 1) (keysOf form),
          args ++ form.map (fun e => Value.text (e.2.headD "")), none) := by
  intro form
  induction form with
  | nil => intro i args b _ _; simp [filteringLoop, whereClauses, keysOf]
  | cons e rest ih =>
    intro i args b hk hv
    obtain ⟨k, val⟩ := e
    have hk0 : attrset (ToLower k) = true := hk (k, val) (List.mem_cons_self _ _)
    have hv0 : val ≠ [] := hv (k, val) (List.mem_cons_self _ _)
    cases val with
    | nil => exact absurd rfl hv0
    | cons v vs =>
      have hrest := ih (i + 1) (args ++ [Value.text v])
        (b ++ (" and " ++ k ++ "=$" ++ toString (i + 1)))
        (fun e he => hk e (List.mem_cons_of_mem _ he))
        (fun e he => hv e (List.mem_cons_of_mem _ he))
      simp only [filteringLoop, hk0, Bool.not_true, Bool.false_eq_true, if_false]
      rw [hrest]
      simp [whereClauses, keysOf, String.append_assoc]

theorem filteringLoop_rejects (ToLower : String → String) :
    ∀ (form : Values),
      (∃ e ∈ form, attrset (ToLower e.1) = false) →
      (∀ e ∈ acceptedPrefix ToLower form, e.2 ≠ []) →
      ∃ k ∈ keysOf form, attrset (ToLower k) = false ∧
        ∀ (i : Nat) (args : List Value) (b : String),
          filteringLoop ToLower form i args b =
            .ret ("", [], some (.errorf "unknown attribute %q" [.text k])) := by
  intro form
  induction form with
  | nil => intro hbad _; obtain ⟨e, he, _⟩ := hbad; cases he
  | cons e rest ih =>
    intro hbad hv
    obtain ⟨k, val⟩ := e
    cases hk : attrset (ToLower k) with
    | false =>
      exact ⟨k, by simp [keysOf], hk, fun i args b => by simp [filteringLoop, hk]⟩
    | true =>
      have hpre : acceptedPrefix ToLower ((k, val) :: rest)
          = (k, val) :: acceptedPrefix ToLower rest := by
        simp [acceptedPrefix, List.takeWhile, hk]
      rw [hpre] at hv
      have hv0 : val ≠ [] := hv (k, val) (List.mem_cons_self _ _)
      have hbad2 : ∃ e ∈ rest, attrset (ToLower e.1) = false := by
        obtain ⟨e, he, hf⟩ := hbad
        rcases List.mem_cons.mp he with rfl | he
        · simp [hk] at hf
        · exact ⟨e, he, hf⟩
      cases val with
      | nil => exact absurd rfl hv0
      | cons v vs =>
        obtain ⟨k2, hk2, hf2, hrun⟩ := ih hbad2 (fun e he => hv e (List.mem_cons_of_mem _ he))
        refine ⟨k2, ?_, hf2, ?_⟩
        · simp only [keysOf, List.map_cons, List.mem_cons]; right; exact hk2
        · intro i args b
          simp only [filteringLoop, hk, Bool.not_true, Bool.false_eq_true, if_false]
          exact hrun _ _ _

theorem filteringLoop_two_runs (ToLower : String → String) :
    ∀ (f1 f2 : Values) (i : Nat) (a1 a2 : List Value) (b : String) (r1 r2 : FilterResult),
      keysOf f1 = keysOf f2 →
      filteringLoop ToLower f1 i a1 b = .ret r1 →
      filteringLoop ToLower f2 i a2 b = .ret r2 →
      r1.1 = r2.1 ∧ r1.2.2 = r2.2.2 := by
  intro f1
  induction f1 with
  | nil =>
    intro f2 i a1 a2 b r1 r2 hkeys h1 h2
    cases f2 with
    | nil =>
      simp only [filteringLoop, Run.ret.injEq] at h1 h2
      subst h1; subst h2; exact ⟨rfl, rfl⟩
    | cons e f2 => simp [keysOf] at hkeys
  | cons e1 f1 ih =>
    intro f2 i a1 a2 b r1 r2 hkeys h1 h2
    cases f2 with
    | nil => simp [keysOf] at hkeys
    | cons e2 f2 =>
      obtain ⟨k1, v1⟩ := e1
      obtain ⟨k2, v2⟩ := e2
      simp only [keysOf, List.map_cons, List.cons.injEq] at hkeys
      obtain ⟨hk, hrest⟩ := hkeys
      subst hk
      cases hw : attrset (ToLower k1) with
      | false =>
        simp only [filteringLoop, hw, Bool.not_false, if_true, Run.ret.injEq] at h1 h2
        subst h1; subst h2; exact ⟨rfl, rfl⟩
      | true =>
        simp only [filteringLoop, hw, Bool.not_true, Bool.false_eq_true, if_false] at h1 h2
        cases v1 with
        | nil => simp at h1
        | cons x1 xs1 =>
          cases v2 with
          | nil => simp at h2
          | cons x2 xs2 => exact ih f2 _ _ _ _ r1 r2 hrest h1 h2

theorem filteringLoop_shape (ToLower : String → String) :
    ∀ (form : Values) (i : Nat) (args : List Value) (b : String) (r : FilterResult),
      filteringLoop ToLower form i args b = .ret r →
      (r.1 = "" ∧ r.2.1 = [] ∧ r.2.2 ≠ none) ∨
      (r.1 = b ++ whereClauses (i + 1) (keysOf form) ∧ r.2.2 = none ∧
        ∀ k ∈ keysOf form, attrset (ToLower k) = true) := by
  intro form
  induction form with
  | nil =>
    intro i args b r h
    simp only [filteringLoop, Run.ret.injEq] at h
    subst h
    right
    simp [whereClauses, keysOf]
  | cons e rest ih =>
    intro i args b r h
    obtain ⟨k, val⟩ := e
    cases hw : attrset (ToLower k) with
    | false =>
      simp only [filteringLoop, hw, Bool.not_false, if_true, Run.ret.injEq] at h
      subst h
      left
      simp
    | true =>
      simp only [filteringLoop, hw, Bool.not_true, Bool.false_eq_true, if_false] at h
      cases val with
      | nil => simp at h
      | cons v vs =>
        rcases ih _ _ _ r h with h3 | ⟨h3, h4, h5⟩
        · left; exact h3
        · right
          refine ⟨?_, h4, ?_⟩
          · rw [h3]; simp [whereClauses, keysOf, String.append_assoc]
          · intro k2 hk2
            simp only [keysOf, List.map_cons, List.mem_cons] at hk2
            rcases hk2 with rfl | hk2
            · exact hw
            · exact h5 k2 hk2

theorem filteringQuery_accepts_aux (ToLower : String → String) (q : String) (form : Values)
    (hkeys : ∀ e ∈ form, attrset (ToLower e.1) = true) (hvals : ∀ e ∈ form, e.2 ≠ []) :
    ∃ args : List Value,
      filteringQuery ToLower q form =
        .ret (q ++ " where 1=1" ++ whereClauses 1 (keysOf form), args, none) ∧
      args = form.map (fun e => Value.text (e.2.headD "")) := by
  refine ⟨_, ?_, rfl⟩
  have h := filteringLoop_accepts ToLower form 0 [] ("" ++ q ++ " where 1=1") hkeys hvals
  simpa [filteringQuery] using h

/-! ## Response writer: lemmas -/

theorem httpError_Code (w : ResponseRecorder) (error : Text) (code : Nat)
    (hw : w.wroteHeader = false) : (httpError w error code).Code = code := by
  simp [httpError, ResponseRecorder.Write, ResponseRecorder.WriteHeader,
    ResponseRecorder.Set, hw]

theorem writeJSON_Code (w : ResponseRecorder) (bytes : String)
    (hw : w.wroteHeader = false) : (writeJSON w bytes).Code = 200 := by
  simp [writeJSON, ResponseRecorder.Write, ResponseRecorder.WriteHeader,
    ResponseRecorder.Set, hw]

theorem Set_wroteHeader (w : ResponseRecorder) (key value : String) :
    (w.Set key value).wroteHeader = w.wroteHeader := rfl

theorem Set_Get (w : ResponseRecorder) (key value key2 : String) :
    (w.Set key value).Get key2 = if key = key2 then some value else w.Get key2 := by
  by_cases h : key = key2 <;> simp [ResponseRecorder.Set, ResponseRecorder.Get, List.find?, h]

theorem httpError_Get (w : ResponseRecorder) (error : Text) (code : Nat) (key : String)
    (h1 : key ≠ "Content-Type") (h2 : key ≠ "X-Content-Type-Options") :
    (httpError w error code).Get key = w.Get key := by
  have e1 : ¬ ("Content-Type" = key) := fun h => h1 h.symm
  have e2 : ¬ ("X-Content-Type-Options" = key) := fun h => h2 h.symm
  have h3 := Set_Get w "Content-Type" "text/plain; charset=utf-8" key
  have h4 := Set_Get (w.Set "Content-Type" "text/plain; charset=utf-8")
    "X-Content-Type-Options" "nosniff" key
  simp only [e1, e2, if_false] at h3 h4
  rw [← h3, ← h4]
  unfold httpError
  by_cases hw : w.wroteHeader = true <;>
    simp [ResponseRecorder.Write, ResponseRecorder.WriteHeader, ResponseRecorder.Set,
      ResponseRecorder.Get, hw]

/-! ## `filteringQuery`: the claims -/

/-- C1. When every key of the form passes the whitelist check (after lower-casing) and carries
at least one value, `filteringQuery` returns no error; with `k1..kn` the keys in the order the
loop visits them, the text is the base query, then ` where 1=1`, then ` and ki=$i` for
`i = 1..n`; there are `n` arguments and the `i`-th is the first value of `ki`. -/
theorem filteringQuery_whitelisted (ToLower : String → String) (q : String) (form : Values)
    (hkeys : ∀ e ∈ form, attrset (ToLower e.1) = true) (hvals : ∀ e ∈ form, e.2 ≠ []) :
    ∃ args : List Value,
      filteringQuery ToLower q form =
        .ret (q ++ " where 1=1" ++ whereClauses 1 (keysOf form), args, none) ∧
      args.length = form.length ∧
      ∀ (i : Nat) (hi : i < form.length),
        ∃ v rest, (form.get ⟨i, hi⟩).2 = v :: rest ∧ args[i]? = some (Value.text v) := by
  refine ⟨form.map (fun e => Value.text (e.2.headD "")), ?_, by simp, ?_⟩
  · have h := filteringLoop_accepts ToLower form 0 [] ("" ++ q ++ " where 1=1") hkeys hvals
    simpa [filteringQuery] using h
  · intro i hi
    have hne : (form.get ⟨i, hi⟩).2 ≠ [] := hvals _ (List.get_mem _ _ _)
    cases hval : (form.get ⟨i, hi⟩).2 with
    | nil => exact absurd hval hne
    | cons v rest =>
      refine ⟨v, rest, rfl, ?_⟩
      have hval2 : form[i].2 = v :: rest := hval
      simp [List.getElem?_map, List.getElem?_eq_getElem hi, hval2]

theorem filteringQuery_whitelisted_witness :
    ∃ args : List Value,
      filteringQuery asciiLower "select 1" [("Name", ["x", "y"]), ("code", ["z"])] =
        .ret ("select 1" ++ " where 1=1" ++ whereClauses 1 (keysOf [("Name", ["x", "y"]), ("code", ["z"])]),
          args, none) ∧
      args.length = [("Name", ["x", "y"]), ("code", ["z"])].length ∧
      ∀ (i : Nat) (hi : i < [("Name", ["x", "y"]), ("code", ["z"])].length),
        ∃ v rest, ([("Name", ["x", "y"]), ("code", ["z"])].get ⟨i, hi⟩).2 = v :: rest ∧
          args[i]? = some (Value.text v) :=
  filteringQuery_whitelisted asciiLower "select 1" [("Name", ["x", "y"]), ("code", ["z"])]
    (by decide) (by decide)

/-- C3. Two runs of `filteringQuery` on forms with the same keys in the same visiting order
return the same query text and the same error, whatever the values are; a returned text is
either empty (with an error) or the base query, ` where 1=1` and one clause per key, every key
having passed the whitelist check; and the call does return when every key has a value. -/
theorem filteringQuery_text_ignores_values (ToLower : String → String) (q : String)
    (f1 f2 : Values) (hkeys : keysOf f1 = keysOf f2) :
    (∀ r1 r2 : FilterResult,
      filteringQuery ToLower q f1 = .ret r1 → filteringQuery ToLower q f2 = .ret r2 →
      r1.1 = r2.1 ∧ r1.2.2 = r2.2.2 ∧
      ((r1.1 = "" ∧ r1.2.2 ≠ none) ∨
        (r1.1 = q ++ " where 1=1" ++ whereClauses 1 (keysOf f1) ∧
          ∀ k ∈ keysOf f1, attrset (ToLower k) = true))) ∧
    ((∀ e ∈ f1, e.2 ≠ []) → ∃ r, filteringQuery ToLower q f1 = .ret r) := by
  constructor
  · intro r1 r2 h1 h2
    simp only [filteringQuery] at h1 h2
    obtain ⟨ht, he⟩ := filteringLoop_two_runs ToLower f1 f2 0 [] [] _ r1 r2 hkeys h1 h2
    refine ⟨ht, he, ?_⟩
    rcases filteringLoop_shape ToLower f1 0 [] _ r1 h1 with ⟨h3, _, h5⟩ | ⟨h3, _, h5⟩
    · left; exact ⟨h3, h5⟩
    · right
      refine ⟨?_, h5⟩
      rw [h3]; simp
  · intro hv
    by_cases hall : ∀ e ∈ f1, attrset (ToLower e.1) = true
    · obtain ⟨args, h, _⟩ := filteringQuery_accepts_aux ToLower q f1 hall hv
      exact ⟨_, h⟩
    · have hbad : ∃ e ∈ f1, attrset (ToLower e.1) = false := by
        by_contra hcon
        apply hall
        intro e he
        by_contra hne
        exact hcon ⟨e, he, by simpa using hne⟩
      obtain ⟨k, _, _, h⟩ := filteringLoop_rejects ToLower f1 hbad
        (fun e he => hv e (List.takeWhile_subset _ he))
      exact ⟨_, by simpa [filteringQuery] using h 0 [] ("" ++ q ++ " where 1=1")⟩

theorem filteringQuery_text_ignores_values_witness :
    (∀ r1 r2 : FilterResult,
      filteringQuery asciiLower "select 1" [("name", ["a"]), ("Code", ["b"])] = .ret r1 →
      filteringQuery asciiLower "select 1"
        [("name", ["x or 1=1", "c"]), ("Code", ["; drop table company"])] = .ret r2 →
      r1.1 = r2.1 ∧ r1.2.2 = r2.2.2 ∧
      ((r1.1 = "" ∧ r1.2.2 ≠ none) ∨
        (r1.1 = "select 1" ++ " where 1=1"
            ++ whereClauses 1 (keysOf [("name", ["a"]), ("Code", ["b"])]) ∧
          ∀ k ∈ keysOf [("name", ["a"]), ("Code", ["b"])], attrset (asciiLower k) = true))) ∧
    ((∀ e ∈ [("name", ["a"]), ("Code", ["b"])], e.2 ≠ []) →
      ∃ r, filteringQuery asciiLower "select 1" [("name", ["a"]), ("Code", ["b"])] = .ret r) :=
  filteringQuery_text_ignores_values asciiLower "select 1" [("name", ["a"]), ("Code", ["b"])]
    [("name", ["x or 1=1", "c"]), ("Code", ["; drop table company"])] (by decide)

/-! ## `Model.All` and the `List` handler -/

theorem Model_All_of_rejected (ToLower : String → String) (d : Driver) (form : Values) (db : DB)
    (err : GoError) (h : filteringQuery ToLower allSQL form = .ret ("", [], some err)) :
    Model.All ToLower d form db = (.ret ([], some (.ErrNotFound err.Error)), db) := by
  simp [Model.All, h]

theorem ListHandler_of_rejected (ToLower : String → String) (d : Driver)
    (Marshal : List Company → Except GoError String) (w : ResponseRecorder) (r : Request)
    (db : DB) (form : Values) (err : GoError) (hform : r.ParseForm = .ok form)
    (h : filteringQuery ToLower allSQL form = .ret ("", [], some err)) :
    ListHandler ToLower d Marshal w r db = .ret (httpError w err.Error 400, db) := by
  simp [ListHandler, hform, Model_All_of_rejected ToLower d form db err h, lookupStatus,
    GoError.isErrNotFound, GoError.Error]

theorem ListHandler_rejects_unknown (ToLower : String → String) (visit : Values)
    (hbad : ∃ e ∈ visit, attrset (ToLower e.1) = false)
    (hvals : ∀ e ∈ acceptedPrefix ToLower visit, e.2 ≠ []) :
    ∃ k ∈ keysOf visit, attrset (ToLower k) = false ∧
      (∀ q, filteringQuery ToLower q visit =
        .ret ("", [], some (.errorf "unknown attribute %q" [.text k]))) ∧
      (∀ d db, Model.All ToLower d visit db =
        (.ret ([], some (.ErrNotFound (.sprintf "unknown attribute %q" [.text k]))), db)) ∧
      (∀ d Marshal w r db, r.ParseForm = .ok visit → w.wroteHeader = false →
        statusOf (ListHandler ToLower d Marshal w r db) = some 400) := by
  obtain ⟨k, hk, hf, hrun⟩ := filteringLoop_rejects ToLower visit hbad hvals
  have hq : ∀ q, filteringQuery ToLower q visit =
      .ret ("", [], some (.errorf "unknown attribute %q" [.text k])) := by
    intro q
    simpa [filteringQuery] using hrun 0 [] ("" ++ q ++ " where 1=1")
  refine ⟨k, hk, hf, hq, ?_, ?_⟩
  · intro d db
    simpa [GoError.Error] using Model_All_of_rejected ToLower d visit db _ (hq allSQL)
  · intro d Marshal w r db hform hw
    rw [ListHandler_of_rejected ToLower d Marshal w r db visit _ hform (hq allSQL)]
    simp [statusOf, httpError_Code _ _ _ hw]

/-- C2, as amended. Let the form contain a key that fails the whitelist check after
lower-casing, let `visit` be any order in which the loop visits the entries, and let every
entry visited before the first failing key carry at least one value. Then `filteringQuery`
returns an error naming a failing key, with empty text and no arguments; `Model.All` returns
it as `ErrNotFound` and leaves the store and its trace untouched; `List` answers 400. -/
theorem unknown_attribute_rejected (ToLower : String → String) (form visit : Values)
    (hperm : visit.Perm form) (hbad : ∃ e ∈ form, attrset (ToLower e.1) = false)
    (hvals : ∀ e ∈ acceptedPrefix ToLower visit, e.2 ≠ []) :
    ∃ k ∈ keysOf form, attrset (ToLower k) = false ∧
      (∀ q, filteringQuery ToLower q visit =
        .ret ("", [], some (.errorf "unknown attribute %q" [.text k]))) ∧
      (∀ d db, Model.All ToLower d visit db =
        (.ret ([], some (.ErrNotFound (.sprintf "unknown attribute %q" [.text k]))), db)) ∧
      (∀ d Marshal w r db, r.ParseForm = .ok visit → w.wroteHeader = false →
        statusOf (ListHandler ToLower d Marshal w r db) = some 400) := by
  have hbad2 : ∃ e ∈ visit, attrset (ToLower e.1) = false := by
    obtain ⟨e, he, hf⟩ := hbad
    exact ⟨e, hperm.mem_iff.mpr he, hf⟩
  obtain ⟨k, hk, hrest⟩ := ListHandler_rejects_unknown ToLower visit hbad2 hvals
  refine ⟨k, ?_, hrest⟩
  simp only [keysOf, List.mem_map] at hk ⊢
  obtain ⟨e, he, hek⟩ := hk
  exact ⟨e, hperm.mem_iff.mp he, hek⟩

theorem unknown_attribute_rejected_witness :
    ∃ k ∈ keysOf [("name", ["Test0"]), ("eman", ["nwonknU"])], attrset (asciiLower k) = false ∧
      (∀ q, filteringQuery asciiLower q [("eman", ["nwonknU"]), ("name", ["Test0"])] =
        .ret ("", [], some (.errorf "unknown attribute %q" [.text k]))) ∧
      (∀ d db, Model.All asciiLower d [("eman", ["nwonknU"]), ("name", ["Test0"])] db =
        (.ret ([], some (.ErrNotFound (.sprintf "unknown attribute %q" [.text k]))), db)) ∧
      (∀ d Marshal w r db, r.ParseForm = .ok [("eman", ["nwonknU"]), ("name", ["Test0"])] →
        w.wroteHeader = false →
        statusOf (ListHandler asciiLower d Marshal w r db) = some 400) :=
  unknown_attribute_rejected asciiLower [("name", ["Test0"]), ("eman", ["nwonknU"])]
    [("eman", ["nwonknU"]), ("name", ["Test0"])] (List.Perm.swap _ _ _)
    ⟨("eman", ["nwonknU"]), by decide, by decide⟩ (by decide)

/-- C2, counterexample to the claim as stated. The form has the key `eman`, which fails the
whitelist check, and the accepted key `name` with no value; when `name` is visited first the
call panics on `val[0]` and returns nothing. -/
theorem unknown_attribute_panics_on_empty_value :
    attrset (asciiLower "eman") = false ∧
    filteringQuery asciiLower allSQL [("name", []), ("eman", ["nwonknU"])] =
      .panic "index out of range [0] with length 0" := by
  decide

/-- C6, the code at a failing input. The listing query succeeds and yields one row, then
iteration ends with `rows.Err()` non-nil: `Model.All` returns `(nil, nil)`, and the `List`
handler answers 200. -/
theorem Model_All_drops_rows_Err :
    (Model.All asciiLower brokenRowsDriver [] (DB.init [named 1 "Test0"])).1 = .ret ([], none) ∧
    statusOf (ListHandler asciiLower brokenRowsDriver marshalAny NewRecorder (formRequest [])
      (DB.init [named 1 "Test0"])) = some 200 := by
  decide

theorem ListHandler_ok_of_rows (ToLower : String → String) (d : Driver)
    (Marshal : List Company → Except GoError String) (w : ResponseRecorder) (r : Request)
    (db : DB) (form : Values) (rows : Rows) (companies : List Company) (bytes : String)
    (hform : r.ParseForm = .ok form)
    (hkeys : ∀ e ∈ form, attrset (ToLower e.1) = true) (hvals : ∀ e ∈ form, e.2 ≠ [])
    (hw : w.wroteHeader = false)
    (hq : d.Query (allSQL ++ " where 1=1" ++ whereClauses 1 (keysOf form))
      (form.map fun e => Value.text (e.2.headD "")) db.table = .ok rows)
    (hscan : scanLoop rows.scans [] = .ok companies) (hne : companies ≠ [])
    (herr : rows.Err = none) (hm : Marshal companies = .ok bytes) :
    statusOf (ListHandler ToLower d Marshal w r db) = some 200 := by
  obtain ⟨args, hfq, hargs⟩ := filteringQuery_accepts_aux ToLower allSQL form hkeys hvals
  subst hargs
  have hlen : ¬ companies.length = 0 := fun h => hne (List.length_eq_zero.mp h)
  have hAll : Model.All ToLower d form db =
      (.ret (companies, none),
        db.log (.Query (allSQL ++ " where 1=1" ++ whereClauses 1 (keysOf form))
          (form.map fun e => Value.text (e.2.headD "")))) := by
    simp only [Model.All, hfq, DB.Query, hq, hscan, herr]
    simp [hlen]
  simp only [ListHandler, hform, hAll, hm]
  simp [statusOf, writeJSON_Code _ _ hw]

/-- C7, the code at failing inputs. The request `GET /companies?name` parses to a form that
binds `name` to the empty string; the loop of `filteringQuery` never inspects the value and
binds it as `$1`. On a store holding a company whose name is the empty string the `List`
handler answers 200; so it does for `GET /companies?name=Test0&name` on a store holding
`Test0`, where only the first value is bound. On the store of `TestList` the answer is 400,
which comes from the empty result alone. -/
theorem ListHandler_accepts_valueless_parameter :
    filteringQuery asciiLower allSQL [("name", [""])] =
      .ret (allSQL ++ " where 1=1 and name=$1", [.text ""], none) ∧
    statusOf (ListHandler asciiLower memDriver marshalAny NewRecorder (formRequest [("name", [""])])
      (DB.init [named 1 ""])) = some 200 ∧
    statusOf (ListHandler asciiLower memDriver marshalAny NewRecorder
      (formRequest [("name", ["Test0", ""])]) (DB.init [named 1 "Test0"])) = some 200 ∧
    statusOf (ListHandler asciiLower memDriver marshalAny NewRecorder (formRequest [("name", [""])])
      (DB.init [named 1 "Test0"])) = some 400 := by
  decide

/-! ## `Model.Delete`, `Model.Update` and their handlers -/

theorem Model_Delete_not_one (d : Driver) (c : Company) (db : DB) (n : Nat) (t : Table)
    (hbegin : d.Begin db.table = none)
    (hexec : d.Exec deleteSQL [.int c.ID] db.table = .ok (n, t)) (hn : n ≠ 1) :
    Model.Delete d c db =
      (some (.errorf "failed to delete company with id %v" [.int c.ID]),
        (({ db with txOpen := true }.log .Begin).Exec d deleteSQL [.int c.ID]).2.TxRollback) := by
  simp [Model.Delete, DB.Begin, hbegin, DB.Exec, DB.log, hexec, hn]

theorem Model_Update_not_one (d : Driver) (c : Company) (db : DB) (n : Nat) (t : Table)
    (hbegin : d.Begin db.table = none)
    (hexec : d.Exec updateSQL
      [.ofPtr c.Name, .ofPtr c.Code, .ofPtr c.Country, .ofPtr c.Website, .ofPtr c.Phone,
        .int c.ID] db.table = .ok (n, t)) (hn : n ≠ 1) :
    (Model.Update d c db).1 =
      some (.errorf "failed to update company with id %v" [.int c.ID]) := by
  simp [Model.Update, DB.Begin, hbegin, DB.Exec, DB.log, hexec, hn]

/-- C4, as amended. When the store opens the transaction and the mutating statement affects
zero rows, `Model.Delete` and `Model.Update` return a plain `fmt.Errorf` error, which is not an
`ErrNotFound`, and never `nil`; the `Delete` and `Update` handlers, whose prior lookup found
the company, answer 500. -/
theorem zero_rows_is_internal_error (d : Driver) (db : DB) (w : ResponseRecorder)
    (hbegin : d.Begin db.table = none) (hw : w.wroteHeader = false) :
    (∀ c t, d.Exec deleteSQL [.int c.ID] db.table = .ok (0, t) →
      (Model.Delete d c db).1 =
        some (.errorf "failed to delete company with id %v" [.int c.ID]) ∧
      ((Model.Delete d c db).1.map GoError.isErrNotFound) = some false) ∧
    (∀ c t, d.Exec updateSQL
        [.ofPtr c.Name, .ofPtr c.Code, .ofPtr c.Country, .ofPtr c.Website, .ofPtr c.Phone,
          .int c.ID] db.table = .ok (0, t) →
      (Model.Update d c db).1 =
        some (.errorf "failed to update company with id %v" [.int c.ID]) ∧
      ((Model.Update d c db).1.map GoError.isErrNotFound) = some false) ∧
    (∀ Marshal r p company t,
      d.QueryRow byIDSQL [.text (ByName p "id")] db.table = .ok company →
      d.Exec deleteSQL [.int company.ID] db.table = .ok (0, t) →
      (Delete d Marshal w r p db).1.Code = 500) ∧
    (∀ Marshal r p company update t,
      d.QueryRow byIDSQL [.text (ByName p "id")] db.table = .ok company →
      r.DecodeBody = .ok update →
      d.Exec updateSQL
        [.ofPtr update.Name, .ofPtr update.Code, .ofPtr update.Country, .ofPtr update.Website,
          .ofPtr update.Phone, .int company.ID] db.table = .ok (0, t) →
      (Update d Marshal w r p db).1.Code = 500) := by
  refine ⟨?_, ?_, ?_, ?_⟩
  · intro c t hexec
    have h := Model_Delete_not_one d c db 0 t hbegin hexec (by decide)
    simp [h, GoError.isErrNotFound]
  · intro c t hexec
    have h := Model_Update_not_one d c db 0 t hbegin hexec (by decide)
    simp [h, GoError.isErrNotFound]
  · intro Marshal r p company t hrow hexec
    have h := Model_Delete_not_one d company (db.log (.QueryRow byIDSQL [.text (ByName p "id")]))
      0 t hbegin hexec (by decide)
    simp only [Delete, Model.ByID, DB.QueryRow, hrow, h]
    exact httpError_Code _ _ _ hw
  · intro Marshal r p company update t hrow hbody hexec
    have h : (Model.Update d { update with ID := company.ID }
        (db.log (.QueryRow byIDSQL [.text (ByName p "id")]))).1 = _ :=
      Model_Update_not_one d { update with ID := company.ID }
        (db.log (.QueryRow byIDSQL [.text (ByName p "id")])) 0 t hbegin hexec (by decide)
    simp only [Update, Model.ByID, DB.QueryRow, hrow, hbody]
    cases hres : Model.Update d { update with ID := company.ID }
        (db.log (.QueryRow byIDSQL [.text (ByName p "id")])) with
    | mk e db2 =>
      rw [hres] at h
      simp only at h
      subst h
      exact httpError_Code _ _ _ hw

theorem zero_rows_is_internal_error_witness :
    (∀ c t, racedDriver.Exec deleteSQL [.int c.ID] (DB.init [named 7 "Test0"]).table = .ok (0, t) →
      (Model.Delete racedDriver c (DB.init [named 7 "Test0"])).1 =
        some (.errorf "failed to delete company with id %v" [.int c.ID]) ∧
      ((Model.Delete racedDriver c (DB.init [named 7 "Test0"])).1.map GoError.isErrNotFound)
        = some false) ∧
    (∀ c t, racedDriver.Exec updateSQL
        [.ofPtr c.Name, .ofPtr c.Code, .ofPtr c.Country, .ofPtr c.Website, .ofPtr c.Phone,
          .int c.ID] (DB.init [named 7 "Test0"]).table = .ok (0, t) →
      (Model.Update racedDriver c (DB.init [named 7 "Test0"])).1 =
        some (.errorf "failed to update company with id %v" [.int c.ID]) ∧
      ((Model.Update racedDriver c (DB.init [named 7 "Test0"])).1.map GoError.isErrNotFound)
        = some false) ∧
    (∀ Marshal r p company t,
      racedDriver.QueryRow byIDSQL [.text (ByName p "id")] (DB.init [named 7 "Test0"]).table
        = .ok company →
      racedDriver.Exec deleteSQL [.int company.ID] (DB.init [named 7 "Test0"]).table
        = .ok (0, t) →
      (Delete racedDriver Marshal NewRecorder r p (DB.init [named 7 "Test0"])).1.Code = 500) ∧
    (∀ Marshal r p company update t,
      racedDriver.QueryRow byIDSQL [.text (ByName p "id")] (DB.init [named 7 "Test0"]).table
        = .ok company →
      r.DecodeBody = .ok update →
      racedDriver.Exec updateSQL
        [.ofPtr update.Name, .ofPtr update.Code, .ofPtr update.Country, .ofPtr update.Website,
          .ofPtr update.Phone, .int company.ID] (DB.init [named 7 "Test0"]).table = .ok (0, t) →
      (Update racedDriver Marshal NewRecorder r p (DB.init [named 7 "Test0"])).1.Code = 500) :=
  zero_rows_is_internal_error racedDriver (DB.init [named 7 "Test0"]) NewRecorder rfl rfl

/-- C4, counterexample to the claim as stated. Company 7 is found by the handler's lookup and
deleted by another client before the mutation, which therefore affects zero rows: the error
of `Model.Delete` and `Model.Update` is not an `ErrNotFound`, and the `Delete` and `Update`
handlers answer 500, not 400. -/
theorem zero_rows_answers_500 :
    racedDriver.Exec deleteSQL [.int 7] [named 7 "Test0"] = .ok (0, []) ∧
    (Model.Delete racedDriver (named 7 "Test0") (DB.init [named 7 "Test0"])).1 =
      some (.errorf "failed to delete company with id %v" [.int 7]) ∧
    (Model.Update racedDriver (named 7 "Test1") (DB.init [named 7 "Test0"])).1 =
      some (.errorf "failed to update company with id %v" [.int 7]) ∧
    (Delete racedDriver marshalAny NewRecorder (formRequest []) [("id", "7")]
      (DB.init [named 7 "Test0"])).1.Code = 500 ∧
    (Update racedDriver marshalAny NewRecorder
      { formRequest [] with DecodeBody := .ok (named 0 "Test1") } [("id", "7")]
      (DB.init [named 7 "Test0"])).1.Code = 500 := by
  decide

/-- C5, the code at failing inputs. `Model.Delete` and `Model.Update` on a table holding
company 7: after `Begin` the statement is an `Exec` on the pool, no statement is issued on the
transaction, and the committed table has already changed in the trace entry that precedes
`TxCommit`. In a table holding two rows with id 7 the operation returns its error and the rows
are gone all the same. -/
theorem mutation_runs_outside_transaction :
    (Model.Delete memDriver (named 7 "Test0") (DB.init [named 7 "Test0"])).2.trace =
      [(.Begin, [named 7 "Test0"]), (.Exec deleteSQL [.int 7], []),
        (.TxCommit, []), (.TxRollback, [])] ∧
    (Model.Update memDriver (named 7 "Test1") (DB.init [named 7 "Test0"])).2.trace =
      [(.Begin, [named 7 "Test0"]),
        (.Exec updateSQL [.text "Test1", .null, .null, .null, .null, .int 7], [named 7 "Test1"]),
        (.TxCommit, [named 7 "Test1"]), (.TxRollback, [named 7 "Test1"])] ∧
    Model.Delete memDriver (named 7 "Test0") (DB.init [named 7 "Test0", named 7 "Test1"]) =
      (some (.errorf "failed to delete company with id %v" [.int 7]),
        { table := [], txOpen := false,
          trace := [(.Begin, [named 7 "Test0", named 7 "Test1"]),
            (.Exec deleteSQL [.int 7], []), (.TxRollback, [])] }) := by
  decide

/-! ## The gates -/

theorem BasicAuth_accept {σ : Type} (h : Handle σ) (usr pass : String) (w : ResponseRecorder)
    (r : Request) (p : Params) (s : σ) (hr : r.BasicAuth = (usr, pass, true)) :
    BasicAuth h usr pass w r p s = h w r p s := by
  simp [BasicAuth, hr]

theorem BasicAuth_reject {σ : Type} (h : Handle σ) (usr pass : String) (w : ResponseRecorder)
    (r : Request) (p : Params) (s : σ) (hr : r.BasicAuth ≠ (usr, pass, true)) :
    BasicAuth h usr pass w r p s =
      (httpError (w.Set "WWW-Authenticate" "Basic realm=Restricted") (.lit "Unauthorized") 401,
        s) := by
  rcases hv : r.BasicAuth with ⟨u, pw, ok⟩
  rw [hv] at hr
  have hcond : (ok && usr == u && pass == pw) = false := by
    cases ok with
    | false => simp
    | true =>
      by_cases h1 : usr = u
      · by_cases h2 : pass = pw
        · subst h1; subst h2; exact absurd rfl hr
        · simp [h2]
      · simp [h1]
  simp [BasicAuth, hv, hcond]

/-- C8. Run on a fresh response writer with an instrumented inner handler, the gate
`BasicAuth(h, usr, pass)`: when the request carries Basic credentials equal to `(usr, pass)`,
yields exactly the response and world of one run of `h` on the untouched writer, with one
invocation counted; otherwise counts no invocation, leaves the world as it was and answers 401
with `WWW-Authenticate` set. The invocation count is 1 exactly when the credentials match. -/
theorem BasicAuth_forwards_iff_credentials {σ : Type} (h : Handle σ) (usr pass : String)
    (w : ResponseRecorder) (r : Request) (p : Params) (s : σ) (hw : w.wroteHeader = false) :
    (r.BasicAuth = (usr, pass, true) →
      BasicAuth (observed h) usr pass w r p ⟨s, 0, 0⟩ =
        ((h w r p s).1, ⟨(h w r p s).2, 1, 0⟩)) ∧
    (r.BasicAuth ≠ (usr, pass, true) →
      (BasicAuth (observed h) usr pass w r p ⟨s, 0, 0⟩).2 = ⟨s, 0, 0⟩ ∧
      (BasicAuth (observed h) usr pass w r p ⟨s, 0, 0⟩).1.Code = 401 ∧
      (BasicAuth (observed h) usr pass w r p ⟨s, 0, 0⟩).1.Get "WWW-Authenticate" =
        some "Basic realm=Restricted") ∧
    ((BasicAuth (observed h) usr pass w r p ⟨s, 0, 0⟩).2.handlerCalls = 1 ↔
      r.BasicAuth = (usr, pass, true)) := by
  have hacc : r.BasicAuth = (usr, pass, true) →
      BasicAuth (observed h) usr pass w r p ⟨s, 0, 0⟩ =
        ((h w r p s).1, ⟨(h w r p s).2, 1, 0⟩) := by
    intro hr
    rw [BasicAuth_accept _ _ _ _ _ _ _ hr]
    simp [observed]
  have hrej := BasicAuth_reject (observed h) usr pass w r p ⟨s, 0, 0⟩
  refine ⟨hacc, ?_, ?_⟩
  · intro hr
    rw [hrej hr]
    refine ⟨rfl, httpError_Code _ _ _ (by simp [Set_wroteHeader, hw]), ?_⟩
    rw [httpError_Get _ _ _ _ (by decide) (by decide), Set_Get]
    simp
  · constructor
    · intro hcalls
      by_contra hr
      rw [hrej hr] at hcalls
      simp at hcalls
    · intro hr
      rw [hacc hr]

theorem BasicAuth_forwards_iff_credentials_witness :
    (BasicAuth (observed okHandler) "user" "pass" NewRecorder
      (gateRequest "" ("user", "pass", true)) [] ⟨(), 0, 0⟩).2.handlerCalls = 1 ∧
    (BasicAuth (observed okHandler) "user" "pass" NewRecorder
      (gateRequest "" ("wrong", "wrong", true)) [] ⟨(), 0, 0⟩).2 = ⟨(), 0, 0⟩ ∧
    (BasicAuth (observed okHandler) "user" "pass" NewRecorder
      (gateRequest "" ("wrong", "wrong", true)) [] ⟨(), 0, 0⟩).1.Code = 401 ∧
    (BasicAuth (observed okHandler) "user" "pass" NewRecorder
      (gateRequest "" ("wrong", "wrong", true)) [] ⟨(), 0, 0⟩).1.Get "WWW-Authenticate" =
        some "Basic realm=Restricted" :=
  ⟨(BasicAuth_forwards_iff_credentials okHandler "user" "pass" NewRecorder
      (gateRequest "" ("user", "pass", true)) [] () rfl).2.2.mpr rfl,
    (BasicAuth_forwards_iff_credentials okHandler "user" "pass" NewRecorder
      (gateRequest "" ("wrong", "wrong", true)) [] () rfl).2.1 (by decide)⟩

/-- C9. Run on a fresh response writer with instrumented lookup and inner handler, the gate
`CyprusRequest(h)`: answers 400 with no lookup and no invocation of `h` when the remote
address does not split or its host does not parse as an IP; otherwise calls the lookup once
and answers 500 without invoking `h` when the lookup fails; otherwise yields exactly one run
of `h` when the country name is `Cyprus`, and answers 401 without invoking `h` for any other
name. -/
theorem CyprusRequest_decides {σ : Type}
    (SplitHostPort : String → Except GoError (String × String)) (ParseIP : String → Bool)
    (lookup : String → σ → Except GoError String × σ) (h : Handle σ)
    (w : ResponseRecorder) (r : Request) (p : Params) (s : σ) (hw : w.wroteHeader = false) :
    ((∀ ip port, SplitHostPort r.RemoteAddr = .ok (ip, port) → ParseIP ip = false) →
      (CyprusRequest SplitHostPort ParseIP (observedLookup lookup) (observed h) w r p
        ⟨s, 0, 0⟩).2 = ⟨s, 0, 0⟩ ∧
      (CyprusRequest SplitHostPort ParseIP (observedLookup lookup) (observed h) w r p
        ⟨s, 0, 0⟩).1.Code = 400) ∧
    (∀ ip port, SplitHostPort r.RemoteAddr = .ok (ip, port) → ParseIP ip = true →
      (∀ err s2, lookup ip s = (.error err, s2) →
        (CyprusRequest SplitHostPort ParseIP (observedLookup lookup) (observed h) w r p
          ⟨s, 0, 0⟩).2 = ⟨s2, 0, 1⟩ ∧
        (CyprusRequest SplitHostPort ParseIP (observedLookup lookup) (observed h) w r p
          ⟨s, 0, 0⟩).1.Code = 500) ∧
      (∀ cname s2, lookup ip s = (.ok cname, s2) →
        (cname = "Cyprus" →
          CyprusRequest SplitHostPort ParseIP (observedLookup lookup) (observed h) w r p
            ⟨s, 0, 0⟩ = ((h w r p s2).1, ⟨(h w r p s2).2, 1, 1⟩)) ∧
        (cname ≠ "Cyprus" →
          (CyprusRequest SplitHostPort ParseIP (observedLookup lookup) (observed h) w r p
            ⟨s, 0, 0⟩).2 = ⟨s2, 0, 1⟩ ∧
          (CyprusRequest SplitHostPort ParseIP (observedLookup lookup) (observed h) w r p
            ⟨s, 0, 0⟩).1.Code = 401) ∧
        ((CyprusRequest SplitHostPort ParseIP (observedLookup lookup) (observed h) w r p
            ⟨s, 0, 0⟩).2.handlerCalls = 1 ↔ cname = "Cyprus"))) := by
  refine ⟨?_, ?_⟩
  · intro hbad
    rcases hsp : SplitHostPort r.RemoteAddr with e | ⟨ip, port⟩
    · simp only [CyprusRequest, hsp]
      exact ⟨trivial, httpError_Code _ _ _ hw⟩
    · have hip := hbad ip port hsp
      simp only [CyprusRequest, hsp, hip, Bool.not_false, if_true]
      exact ⟨trivial, httpError_Code _ _ _ hw⟩
  · intro ip port hsp hip
    refine ⟨?_, ?_⟩
    · intro err s2 hl
      simp only [CyprusRequest, hsp, hip, Bool.not_true, Bool.false_eq_true, if_false,
        observedLookup, hl]
      exact ⟨trivial, httpError_Code _ _ _ hw⟩
    · intro cname s2 hl
      have hyes : cname = "Cyprus" →
          CyprusRequest SplitHostPort ParseIP (observedLookup lookup) (observed h) w r p
            ⟨s, 0, 0⟩ = ((h w r p s2).1, ⟨(h w r p s2).2, 1, 1⟩) := by
        intro hc
        simp [CyprusRequest, hsp, hip, observedLookup, hl, hc, observed]
      have hno : cname ≠ "Cyprus" →
          CyprusRequest SplitHostPort ParseIP (observedLookup lookup) (observed h) w r p
            ⟨s, 0, 0⟩ = (httpError w (.lit "Unauthorized") 401, ⟨s2, 0, 1⟩) := by
        intro hc
        simp [CyprusRequest, hsp, hip, observedLookup, hl, hc]
      refine ⟨hyes, ?_, ?_⟩
      · intro hc
        rw [hno hc]
        exact ⟨rfl, httpError_Code _ _ _ hw⟩
      · constructor
        · intro hcalls
          by_contra hc
          rw [hno hc] at hcalls
          simp at hcalls
        · intro hc
          rw [hyes hc]

theorem CyprusRequest_decides_witness :
    (CyprusRequest testSplitHostPort testParseIP (observedLookup (pureLookup testCountry))
      (observed okHandler) NewRecorder (gateRequest "102.38.233.1:34343" ("", "", false)) []
      ⟨(), 0, 0⟩).2.handlerCalls = 1 :=
  ((((CyprusRequest_decides testSplitHostPort testParseIP (pureLookup testCountry) okHandler
    NewRecorder (gateRequest "102.38.233.1:34343" ("", "", false)) [] () rfl).2
      "102.38.233.1" "34343" rfl rfl).2 "Cyprus" () rfl).2.2).mpr rfl

/-! ## `wrapOptions` -/

theorem wrapOptions_append {σ : Type}
    (SplitHostPort : String → Except GoError (String × String)) (ParseIP : String → Bool)
    (lookup : String → σ → Except GoError String × σ) :
    ∀ (l1 l2 : List String) (h : Handle σ),
      wrapOptions SplitHostPort ParseIP lookup h (l1 ++ l2) =
        wrapOptions SplitHostPort ParseIP lookup
          (wrapOptions SplitHostPort ParseIP lookup h l1) l2 := by
  intro l1
  induction l1 with
  | nil => intro l2 h; rfl
  | cons o l1 ih => intro l2 h; simp only [List.cons_append, wrapOptions]; exact ih _ _

theorem gate_forwards {σ : Type}
    (SplitHostPort : String → Except GoError (String × String)) (ParseIP : String → Bool)
    (lookup : String → Except GoError String) (g : Handle σ) (o : String)
    (w : ResponseRecorder) (r : Request) (p : Params) (s : σ)
    (hpass : gatePasses SplitHostPort ParseIP lookup r o = true) :
    wrapOptions SplitHostPort ParseIP (pureLookup lookup) g [o] w r p s = g w r p s := by
  by_cases h1 : o = "1"
  · subst h1
    simp only [gatePasses, if_true, geoPasses] at hpass
    rcases hsp : SplitHostPort r.RemoteAddr with e | ⟨ip, port⟩
    · simp [hsp] at hpass
    · rcases hl : lookup ip with e | cname
      · simp [hsp, hl] at hpass
      · simp only [hsp, hl, Bool.and_eq_true, decide_eq_true_eq] at hpass
        simp [wrapOptions, CyprusRequest, hsp, hpass.1, pureLookup, hl, hpass.2]
  · by_cases h2 : o = "2"
    · subst h2
      have hcred : r.BasicAuth = (user, pass, true) := by
        simpa [gatePasses, credentialPasses] using hpass
      simp only [wrapOptions, h1, if_false, if_true]
      exact BasicAuth_accept g user pass w r p s hcred
    · simp [wrapOptions, h1, h2]

theorem gate_rejects {σ : Type}
    (SplitHostPort : String → Except GoError (String × String)) (ParseIP : String → Bool)
    (lookup : String → Except GoError String) (g g2 : Handle σ) (o : String)
    (w : ResponseRecorder) (r : Request) (p : Params) (s : σ)
    (hpass : gatePasses SplitHostPort ParseIP lookup r o = false) :
    wrapOptions SplitHostPort ParseIP (pureLookup lookup) g [o] w r p s =
      wrapOptions SplitHostPort ParseIP (pureLookup lookup) g2 [o] w r p s ∧
    (wrapOptions SplitHostPort ParseIP (pureLookup lookup) g [o] w r p s).2 = s := by
  by_cases h1 : o = "1"
  · subst h1
    simp only [gatePasses, if_true, geoPasses] at hpass
    rcases hsp : SplitHostPort r.RemoteAddr with e | ⟨ip, port⟩
    · simp [wrapOptions, CyprusRequest, hsp]
    · cases hip : ParseIP ip with
      | false => simp [wrapOptions, CyprusRequest, hsp, hip]
      | true =>
        rcases hl : lookup ip with e | cname
        · simp [wrapOptions, CyprusRequest, hsp, hip, pureLookup, hl]
        · simp only [hsp, hl, hip, Bool.true_and, decide_eq_false_iff_not] at hpass
          simp [wrapOptions, CyprusRequest, hsp, hip, pureLookup, hl, hpass]
  · by_cases h2 : o = "2"
    · subst h2
      have hcred : r.BasicAuth ≠ (user, pass, true) := by
        simpa [gatePasses, credentialPasses] using hpass
      simp only [wrapOptions, h1, if_false, if_true]
      rw [BasicAuth_reject g user pass w r p s hcred, BasicAuth_reject g2 user pass w r p s hcred]
      exact ⟨rfl, rfl⟩
    · simp [gatePasses, h1, h2] at hpass

theorem wrapOptions_chain {σ : Type}
    (SplitHostPort : String → Except GoError (String × String)) (ParseIP : String → Bool)
    (lookup : String → Except GoError String) (g : Handle σ) (r : Request) :
    ∀ (opts : List String) (w : ResponseRecorder) (p : Params) (s : σ),
      (opts.all (gatePasses SplitHostPort ParseIP lookup r) = true →
        wrapOptions SplitHostPort ParseIP (pureLookup lookup) g opts w r p s = g w r p s) ∧
      (opts.all (gatePasses SplitHostPort ParseIP lookup r) = false →
        (wrapOptions SplitHostPort ParseIP (pureLookup lookup) g opts w r p s).2 = s) := by
  intro opts
  induction opts using List.reverseRecOn with
  | nil => intro w p s; simp [wrapOptions]
  | append_singleton opts o ih =>
    intro w p s
    rw [wrapOptions_append]
    cases ho : gatePasses SplitHostPort ParseIP lookup r o with
    | true =>
      rw [gate_forwards SplitHostPort ParseIP lookup _ o w r p s ho]
      simpa [List.all_append, ho] using ih w p s
    | false =>
      constructor
      · intro hall
        simp [List.all_append, ho] at hall
      · intro _
        exact (gate_rejects SplitHostPort ParseIP lookup _ g o w r p s ho).2

theorem all_gates_perm (SplitHostPort : String → Except GoError (String × String))
    (ParseIP : String → Bool) (lookup : String → Except GoError String) (r : Request)
    (opts opts2 : List String) (hperm : opts.Perm opts2) :
    opts.all (gatePasses SplitHostPort ParseIP lookup r) =
      opts2.all (gatePasses SplitHostPort ParseIP lookup r) := by
  rw [Bool.eq_iff_iff]
  simp only [List.all_eq_true]
  constructor
  · intro h x hx; exact h x (hperm.mem_iff.mpr hx)
  · intro h x hx; exact h x (hperm.mem_iff.mp hx)

theorem wrapOptions_calls {σ : Type}
    (SplitHostPort : String → Except GoError (String × String)) (ParseIP : String → Bool)
    (lookup : String → Except GoError String) (h : Handle σ) (r : Request)
    (opts : List String) (w : ResponseRecorder) (p : Params) (s : σ) :
    (wrapOptions SplitHostPort ParseIP (pureLookup lookup) (observed h) opts w r p
      ⟨s, 0, 0⟩).2.handlerCalls =
      if opts.all (gatePasses SplitHostPort ParseIP lookup r) = true then 1 else 0 := by
  have hchain := wrapOptions_chain SplitHostPort ParseIP lookup (observed h) r opts w p ⟨s, 0, 0⟩
  cases hall : opts.all (gatePasses SplitHostPort ParseIP lookup r) with
  | true => rw [hchain.1 hall]; simp [observed]
  | false => rw [hchain.2 hall]; simp

/-- C10. For a lookup that is a function of the address, and `h` instrumented to count its
invocations: `wrapOptions(h, [])` is `h`; an identifier other than `1` and `2` adds no gate;
when every gate named in `opts` passes, the chain yields exactly one run of `h` on the
untouched writer, and otherwise `h` is not invoked and the world is left as it was, so the
invocation count is 1 exactly when every gate passes and is the same for every permutation of
`opts`; the last identifier is the outermost gate, and when its gate rejects, the response is
that gate's own rejection whatever the inner chain is. -/
theorem wrapOptions_reaches_iff_all_pass {σ : Type}
    (SplitHostPort : String → Except GoError (String × String)) (ParseIP : String → Bool)
    (lookup : String → Except GoError String) (h : Handle σ) (r : Request) :
    wrapOptions SplitHostPort ParseIP (pureLookup lookup) h [] = h ∧
    (∀ o, o ≠ "1" → o ≠ "2" →
      wrapOptions SplitHostPort ParseIP (pureLookup lookup) h [o] = h) ∧
    (∀ opts w p s,
      (opts.all (gatePasses SplitHostPort ParseIP lookup r) = true →
        wrapOptions SplitHostPort ParseIP (pureLookup lookup) (observed h) opts w r p ⟨s, 0, 0⟩
          = ((h w r p s).1, ⟨(h w r p s).2, 1, 0⟩)) ∧
      (opts.all (gatePasses SplitHostPort ParseIP lookup r) = false →
        (wrapOptions SplitHostPort ParseIP (pureLookup lookup) (observed h) opts w r p
          ⟨s, 0, 0⟩).2 = ⟨s, 0, 0⟩) ∧
      ((wrapOptions SplitHostPort ParseIP (pureLookup lookup) (observed h) opts w r p
          ⟨s, 0, 0⟩).2.handlerCalls = 1 ↔
        opts.all (gatePasses SplitHostPort ParseIP lookup r) = true)) ∧
    (∀ opts opts2 w p s, opts.Perm opts2 →
      (wrapOptions SplitHostPort ParseIP (pureLookup lookup) (observed h) opts w r p
        ⟨s, 0, 0⟩).2.handlerCalls =
      (wrapOptions SplitHostPort ParseIP (pureLookup lookup) (observed h) opts2 w r p
        ⟨s, 0, 0⟩).2.handlerCalls) ∧
    (∀ opts o,
      wrapOptions SplitHostPort ParseIP (pureLookup lookup) h (opts ++ [o]) =
        wrapOptions SplitHostPort ParseIP (pureLookup lookup)
          (wrapOptions SplitHostPort ParseIP (pureLookup lookup) h opts) [o]) ∧
    (∀ opts o w p s (g : Handle σ), gatePasses SplitHostPort ParseIP lookup r o = false →
      wrapOptions SplitHostPort ParseIP (pureLookup lookup) h (opts ++ [o]) w r p s =
        wrapOptions SplitHostPort ParseIP (pureLookup lookup) g [o] w r p s) := by
  refine ⟨rfl, ?_, ?_, ?_, ?_, ?_⟩
  · intro o h1 h2
    simp [wrapOptions, h1, h2]
  · intro opts w p s
    have hchain :=
      wrapOptions_chain SplitHostPort ParseIP lookup (observed h) r opts w p ⟨s, 0, 0⟩
    have hcalls := wrapOptions_calls SplitHostPort ParseIP lookup h r opts w p s
    refine ⟨?_, hchain.2, ?_⟩
    · intro hall
      rw [hchain.1 hall]
      simp [observed]
    · rw [hcalls]
      cases opts.all (gatePasses SplitHostPort ParseIP lookup r) <;> simp
  · intro opts opts2 w p s hperm
    rw [wrapOptions_calls, wrapOptions_calls,
      all_gates_perm SplitHostPort ParseIP lookup r opts opts2 hperm]
  · intro opts o
    exact wrapOptions_append SplitHostPort ParseIP (pureLookup lookup) opts [o] h
  · intro opts o w p s g ho
    rw [wrapOptions_append]
    exact (gate_rejects SplitHostPort ParseIP lookup _ g o w r p s ho).1

theorem wrapOptions_reaches_iff_all_pass_witness :
    (wrapOptions testSplitHostPort testParseIP (pureLookup testCountry) (observed okHandler)
      ["1", "2"] NewRecorder (gateRequest "102.38.233.1:34343" ("xmusr", "xmpass", true)) []
      ⟨(), 0, 0⟩).2.handlerCalls = 1 ∧
    (wrapOptions testSplitHostPort testParseIP (pureLookup testCountry) (observed okHandler)
      ["2", "1"] NewRecorder (gateRequest "8.8.8.8:34343" ("xmusr", "xmpass", true)) []
      ⟨(), 0, 0⟩).2 = ⟨(), 0, 0⟩ :=
  ⟨((wrapOptions_reaches_iff_all_pass testSplitHostPort testParseIP testCountry okHandler
      (gateRequest "102.38.233.1:34343" ("xmusr", "xmpass", true))).2.2.1
      ["1", "2"] NewRecorder [] ()).2.2.mpr (by decide),
    ((wrapOptions_reaches_iff_all_pass testSplitHostPort testParseIP testCountry okHandler
      (gateRequest "8.8.8.8:34343" ("xmusr", "xmpass", true))).2.2.1
      ["2", "1"] NewRecorder [] ()).2.1 (by decide)⟩

end company
